import Mathlib

/-!
Shallow embedding of the threat scoring and explanation engine of the
social-engineering detection repository (service module: analyzeThreatWithNLP,
generateNLPExplanation, scanCommunication, updateUserStats,
markThreatResolved, markThreatAcknowledged), together with proofs checking the
natural-language specification against it.

External I/O (the Supabase pattern fetch, the record insert, the stats
read-modify-write) is modelled by passing the fetched data and the outcome of
the insert in explicitly; JavaScript numbers are modelled by ℚ and JavaScript
strings by Lean strings over their character lists.
-/

namespace ThreatEngine

/-- Model of JavaScript `String.prototype.toLowerCase` applied to a string:
the character list with `Char.toLower` mapped over it. -/
def lowerChars (s : String) : List Char :=
  s.data.map Char.toLower

/-- Test whether `sub` is an initial segment of `hay` (helper for the
substring test below). -/
def leadsWith : List Char → List Char → Bool
  | _, [] => true
  | [], _ :: _ => false
  | a :: as, b :: bs => a == b && leadsWith as bs

/-- Model of JavaScript `String.prototype.includes` on character lists:
`containsSub hay sub` is true when `sub` occurs contiguously inside `hay`. -/
def containsSub : List Char → List Char → Bool
  | [], sub => sub.isEmpty
  | a :: t, sub => leadsWith (a :: t) sub || containsSub t sub

theorem leadsWith_iff (hay sub : List Char) :
    leadsWith hay sub = true ↔ ∃ post, hay = sub ++ post := by
  induction sub generalizing hay with
  | nil => simp [leadsWith]
  | cons b bs ih =>
    cases hay with
    | nil => simp [leadsWith]
    | cons a as =>
      simp only [leadsWith, Bool.and_eq_true, beq_iff_eq, ih, List.cons_append,
        List.cons.injEq]
      constructor
      · rintro ⟨rfl, post, rfl⟩
        exact ⟨post, rfl, rfl⟩
      · rintro ⟨post, rfl, rfl⟩
        exact ⟨rfl, post, rfl⟩

theorem containsSub_iff (hay sub : List Char) :
    containsSub hay sub = true ↔ ∃ pre post, hay = pre ++ sub ++ post := by
  induction hay with
  | nil =>
    simp only [containsSub, List.isEmpty_iff]
    constructor
    · rintro rfl
      exact ⟨[], [], rfl⟩
    · rintro ⟨pre, post, h⟩
      rcases List.append_eq_nil.mp (List.append_eq_nil.mp h.symm).1 with ⟨-, h2⟩
      exact h2
  | cons a t ih =>
    simp only [containsSub, Bool.or_eq_true, leadsWith_iff, ih]
    constructor
    · rintro (⟨post, hp⟩ | ⟨pre, post, hp⟩)
      · exact ⟨[], post, by simpa using hp⟩
      · exact ⟨a :: pre, post, by simp [hp]⟩
    · rintro ⟨pre, post, h⟩
      cases pre with
      | nil =>
        left
        exact ⟨post, by simpa using h⟩
      | cons p ps =>
        right
        simp only [List.cons_append, List.cons.injEq] at h
        exact ⟨ps, post, h.2⟩

/-- Case-insensitive substring occurrence: the notion of the spec that an indicator
"occurs as a case-insensitive substring of the full content". -/
def occursIn (ind content : String) : Prop :=
  ∃ pre post, lowerChars content = pre ++ lowerChars ind ++ post

theorem occursIn_iff_containsSub (ind content : String) :
    occursIn ind content ↔ containsSub (lowerChars content) (lowerChars ind) = true := by
  rw [containsSub_iff]
  rfl

/-- The `ThreatPattern` interface of the service module: one catalog entry. -/
structure ThreatPattern where
  pattern_name : String
  pattern_type : String
  indicators : List String
  severity_weight : ℚ
deriving DecidableEq

/-- The closed `severity_level` enumeration. -/
inductive Severity
  | safe
  | low
  | medium
  | high
  | critical
deriving DecidableEq

/-- One entry of the transient `detectedPatterns` array built by the matcher
loop: a pattern together with its matched indicators. -/
structure MatchResult where
  pattern : ThreatPattern
  matched : List String
deriving DecidableEq

/-- The inner loop of the matcher (`indicators.forEach` pushing each indicator
contained case-insensitively in the content): the matched indicators of one
pattern, in indicator declaration order. -/
def matchedIndicators (content : String) (p : ThreatPattern) : List String :=
  p.indicators.filter (fun indicator => containsSub (lowerChars content) (lowerChars indicator))

/-- The outer loop of the matcher (`patterns.forEach` pushing
`\x7b pattern, matches \x7d` whenever `matches.length > 0`), in catalog order. -/
def detectPatterns (content : String) (patterns : List ThreatPattern) : List MatchResult :=
  patterns.filterMap (fun p =>
    let found := matchedIndicators content p
    if found.isEmpty then none else some ⟨p, found⟩)

/-- The severity threshold chain of `analyzeThreatWithNLP`
(`if (avgWeight >= 0.9) ... else ...`). -/
def severityFromAvg (avgWeight : ℚ) : Severity :=
  if avgWeight ≥ 0.9 then .critical
  else if avgWeight ≥ 0.75 then .high
  else if avgWeight ≥ 0.5 then .medium
  else .low

/-- Transcription of `generateNLPExplanation`: the per-pattern bullet lines, the
severity-keyed description/recommendation table (`switch (severityLevel)`,
whose `default` case covers `safe`), and the fixed template. -/
def generateNLPExplanation (detectedPatterns : List MatchResult)
    (severityLevel : Severity) (sourceType : String) : String :=
  let patternDescriptions := String.intercalate "\n" (detectedPatterns.map (fun p =>
    let matchList := String.intercalate ", " ((p.matched.take 3).map (fun m => "\"" ++ m ++ "\""))
    "• " ++ p.pattern.pattern_name ++ ": Detected " ++ toString p.matched.length ++
      " indicator(s) including " ++ matchList))
  let texts : String × String :=
    match severityLevel with
    | .critical =>
      ("CRITICAL THREAT - This communication exhibits multiple high-risk social engineering tactics commonly used in sophisticated attacks.",
       "DO NOT interact with this message. Do not click any links, download attachments, or provide any information. Report this immediately to your security team and delete it.")
    | .high =>
      ("HIGH RISK - This communication shows strong indicators of a social engineering attack designed to manipulate you into taking harmful actions.",
       "Exercise extreme caution. Verify the sender through a separate, trusted communication channel before taking any action. Do not click links or provide sensitive information.")
    | .medium =>
      ("MEDIUM RISK - This communication contains suspicious elements that may indicate a social engineering attempt.",
       "Be cautious. Independently verify the legitimacy of this communication before responding or taking action. Look for additional warning signs.")
    | .low =>
      ("LOW RISK - Minor indicators detected that warrant attention, though the threat level is relatively low.",
       "Remain alert. While not immediately dangerous, verify the authenticity if the message requests any action or information from you.")
    | .safe =>
      ("Safe communication detected.", "No immediate action required.")
  let severityDescription := texts.1
  let recommendation := texts.2
  "🎯 THREAT ANALYSIS SUMMARY\n\n" ++ severityDescription ++
    "\n\n📊 SOURCE TYPE: " ++ sourceType.toUpper ++
    "\n\n🔍 DETECTED ATTACK PATTERNS:\n" ++ patternDescriptions ++
    "\n\n💡 WHY THIS IS A THREAT:\nSocial engineering attacks exploit human psychology rather than technical vulnerabilities. Attackers use manipulation techniques like urgency, authority, fear, or reward to bypass your natural skepticism and trick you into:\n- Revealing sensitive information (passwords, financial data)\n- Clicking malicious links that install malware\n- Transferring money or making unauthorized purchases\n- Granting access to secure systems\n\nThe patterns detected in this communication are consistent with known social engineering tactics used by cybercriminals to compromise individuals and organizations.\n\n✅ RECOMMENDED ACTION:\n" ++
    recommendation ++
    "\n\n🛡️ REMEMBER: Legitimate organizations will never:\n- Demand immediate action with threats\n- Ask for passwords or sensitive data via email\n- Use urgent language to prevent you from thinking clearly\n- Send unsolicited links requiring immediate clicks"

/-- The return type of `analyzeThreatWithNLP`. -/
structure AnalysisResult where
  threatType : String
  severityLevel : Severity
  detectedPatterns : List String
  confidenceScore : ℚ
  nlpExplanation : String
deriving DecidableEq

/-- Embedding of `analyzeThreatWithNLP` with the catalog fetch made explicit:
`patternsResult = none` models the `!patterns` branch (fetch returned no
data), `some patterns` the fetched active-pattern list in catalog order. -/
def analyzeThreatWithNLP (patternsResult : Option (List ThreatPattern))
    (content : String) (sourceType : String) : AnalysisResult :=
  match patternsResult with
  | none =>
    { threatType := "none"
      severityLevel := .safe
      detectedPatterns := []
      confidenceScore := 0
      nlpExplanation := "No threats detected. This communication appears safe." }
  | some patterns =>
    match detectPatterns content patterns with
    | [] =>
      { threatType := "none"
        severityLevel := .safe
        detectedPatterns := []
        confidenceScore := 95
        nlpExplanation := "Analysis complete: No social engineering indicators detected. This communication appears legitimate and safe." }
    | firstMatch :: rest =>
      let detected := firstMatch :: rest
      let totalWeight := detected.foldl (fun sum p => sum + p.pattern.severity_weight) 0
      let avgWeight := totalWeight / (detected.length : ℚ)
      let confidenceScore := min 95 (50 + (detected.length : ℚ) * 15 + avgWeight * 20)
      let severityLevel := severityFromAvg avgWeight
      { threatType := firstMatch.pattern.pattern_type
        severityLevel := severityLevel
        detectedPatterns := detected.map (fun p => p.pattern.pattern_name)
        confidenceScore := confidenceScore
        nlpExplanation := generateNLPExplanation detected severityLevel sourceType }

/-- The `threats_by_severity` JSON object, fully keyed by the closed severity
enumeration. -/
structure SeverityCounts where
  safe : ℕ
  low : ℕ
  medium : ℕ
  high : ℕ
  critical : ℕ
deriving DecidableEq

/-- Read `threatsBySeverity[severityLevel]`. -/
def SeverityCounts.get (b : SeverityCounts) : Severity → ℕ
  | .safe => b.safe
  | .low => b.low
  | .medium => b.medium
  | .high => b.high
  | .critical => b.critical

/-- Write `threatsBySeverity[severityLevel] = n`. -/
def SeverityCounts.set (b : SeverityCounts) (s : Severity) (n : ℕ) : SeverityCounts :=
  match s with
  | .safe => { b with safe := n }
  | .low => { b with low := n }
  | .medium => { b with medium := n }
  | .high => { b with high := n }
  | .critical => { b with critical := n }

/-- One `detection_stats` row for a (user, date) pair. -/
structure DailyStats where
  total_scanned : ℕ
  threats_detected : ℕ
  false_positives : ℕ
  threats_by_severity : SeverityCounts
deriving DecidableEq

/-- Embedding of `updateUserStats` with the `maybeSingle` read made explicit: `existing` is
the row currently stored for (user, today), or `none`. The `some` branch is
the `.update` (which leaves `false_positives` untouched), the `none` branch
the `.insert` with the freshly keyed severity object. -/
def updateUserStats (existing : Option DailyStats) (severityLevel : Severity) : DailyStats :=
  match existing with
  | some s =>
    { total_scanned := s.total_scanned + 1
      threats_detected := s.threats_detected + (if severityLevel ≠ .safe then 1 else 0)
      false_positives := s.false_positives
      threats_by_severity :=
        s.threats_by_severity.set severityLevel (s.threats_by_severity.get severityLevel + 1) }
  | none =>
    { total_scanned := 1
      threats_detected := if severityLevel ≠ .safe then 1 else 0
      false_positives := 0
      threats_by_severity := SeverityCounts.set ⟨0, 0, 0, 0, 0⟩ severityLevel 1 }

/-- A sequence of `updateUserStats` calls for one (user, date), starting from
no stored row: the state of the row after each scan of the day. -/
def runDailyScans (sevs : List Severity) : Option DailyStats :=
  sevs.foldl (fun st sev => some (updateUserStats st sev)) none

/-- Sum of the per-severity counters of a row. -/
def sumCounts (b : SeverityCounts) : ℕ :=
  b.safe + b.low + b.medium + b.high + b.critical

/-- The cross-field invariant of a possibly-absent stats row: when the row
exists, its per-severity counters sum to `total_scanned`. -/
def statsInvariant : Option DailyStats → Prop
  | none => True
  | some s => sumCounts s.threats_by_severity = s.total_scanned

/-- The closed `status` enumeration of a threat record. -/
inductive Status
  | new
  | acknowledged
  | resolved
  | false_positive
deriving DecidableEq

/-- The mutable columns of a stored `threat_detections` row that the two
status-transition endpoints touch. -/
structure StoredThreat where
  status : Status
  resolved_at : Option String
deriving DecidableEq

/-- Embedding of `markThreatResolved`, applied to the row matching the given id: the update
sets `status` and `resolved_at` with no precondition on the current status. -/
def markThreatResolved (t : StoredThreat) (now : String) : StoredThreat :=
  { t with status := .resolved, resolved_at := some now }

/-- Embedding of `markThreatAcknowledged`, applied to the row matching the given id: the
update sets `status` with no precondition on the current status and leaves
`resolved_at` untouched. -/
def markThreatAcknowledged (t : StoredThreat) : StoredThreat :=
  { t with status := .acknowledged }

/-- The row `scanCommunication` inserts into `threat_detections`. -/
structure ThreatDetectionRecord where
  user_id : String
  threat_type : String
  severity_level : Severity
  source_type : String
  source_content : String
  detected_patterns : List String
  confidence_score : ℚ
  nlp_explanation : String
  status : Status
deriving DecidableEq

/-- The external world a single `scanCommunication` call sees: the outcome of
the catalog fetch, whether the insert errors, and the stats row currently
stored for (user, today). -/
structure ScanEnv where
  patternsResult : Option (List ThreatPattern)
  insertFails : Bool
  existingStats : Option DailyStats
deriving DecidableEq

/-- Embedding of `scanCommunication`: analyze, insert the record (`none` on insert error,
before which the function returns), then `updateUserStats`. The result pairs
the value returned to the caller with the stats row stored afterwards. -/
def scanCommunication (env : ScanEnv) (userId content sourceType : String) :
    Option ThreatDetectionRecord × Option DailyStats :=
  let analysis := analyzeThreatWithNLP env.patternsResult content sourceType
  let record : ThreatDetectionRecord :=
    { user_id := userId
      threat_type := analysis.threatType
      severity_level := analysis.severityLevel
      source_type := sourceType
      source_content := content
      detected_patterns := analysis.detectedPatterns
      confidence_score := analysis.confidenceScore
      nlp_explanation := analysis.nlpExplanation
      status := .new }
  if env.insertFails then
    (none, env.existingStats)
  else
    (some record, some (updateUserStats env.existingStats analysis.severityLevel))

/-- Modelled from the spec: `confidence = min(95, 50 + 15 × count + 20 × avg_weight)`. -/
def confidenceSpec (count : ℕ) (avgWeight : ℚ) : ℚ :=
  min 95 (50 + 15 * count + 20 * avgWeight)

/-- Modelled from the spec: severity thresholds on `avg_weight`, inclusive at
the lower bound, critical checked first. -/
def severitySpec (avgWeight : ℚ) : Severity :=
  if 0.9 ≤ avgWeight then .critical
  else if 0.75 ≤ avgWeight then .high
  else if 0.5 ≤ avgWeight then .medium
  else .low

/-- Modelled from the spec: `avg_weight = mean(severity_weight over matched patterns)`. -/
def avgWeightSpec (detected : List MatchResult) : ℚ :=
  (detected.map (fun r => r.pattern.severity_weight)).sum / (detected.length : ℚ)

/-- Demo catalog entry used as concrete input, first in catalog order. -/
def demoUrgency : ThreatPattern :=
  ⟨"Urgent Action Required", "urgency", ["urgent", "immediately", "act now"], 0.75⟩

/-- Demo catalog entry used as concrete input, second in catalog order, with a
strictly higher weight than the first. -/
def demoLinks : ThreatPattern :=
  ⟨"Suspicious Links", "phishing", ["bit.ly", "tinyurl"], 0.9⟩

/-- The two-pattern demo catalog of the concrete scenario of the spec. -/
def demoCatalog : List ThreatPattern :=
  [demoUrgency, demoLinks]

/-- Content for which both demo patterns match. -/
def demoContent : String :=
  "URGENT: verify your account now, click bit.ly/xyz"

/-- Content for which no demo pattern matches. -/
def demoSafeContent : String :=
  "Meet for coffee tomorrow"

theorem mem_matchedIndicators (content : String) (p : ThreatPattern) (ind : String) :
    ind ∈ matchedIndicators content p ↔ ind ∈ p.indicators ∧ occursIn ind content := by
  simp [matchedIndicators, List.mem_filter, occursIn_iff_containsSub]

theorem matchedIndicators_sublist (content : String) (p : ThreatPattern) :
    List.Sublist (matchedIndicators content p) p.indicators :=
  List.filter_sublist _

theorem matchedIndicators_ne_nil_iff (content : String) (p : ThreatPattern) :
    matchedIndicators content p ≠ [] ↔ ∃ ind ∈ p.indicators, occursIn ind content := by
  constructor
  · intro h
    rcases List.exists_mem_of_ne_nil _ h with ⟨ind, hind⟩
    rcases (mem_matchedIndicators content p ind).mp hind with ⟨h1, h2⟩
    exact ⟨ind, h1, h2⟩
  · rintro ⟨ind, h1, h2⟩ hnil
    have : ind ∈ matchedIndicators content p := (mem_matchedIndicators content p ind).mpr ⟨h1, h2⟩
    simp [hnil] at this

theorem mem_detectPatterns (content : String) (patterns : List ThreatPattern) (r : MatchResult) :
    r ∈ detectPatterns content patterns ↔
      r.pattern ∈ patterns ∧ r.matched = matchedIndicators content r.pattern ∧ r.matched ≠ [] := by
  obtain ⟨rp, rm⟩ := r
  simp only [detectPatterns, List.mem_filterMap]
  constructor
  · rintro ⟨p, hp, hf⟩
    cases he : (matchedIndicators content p).isEmpty with
    | true => simp [he] at hf
    | false =>
      simp only [he, Bool.false_eq_true, if_false, Option.some.injEq,
        MatchResult.mk.injEq] at hf
      obtain ⟨hf1, hf2⟩ := hf
      subst hf1
      subst hf2
      refine ⟨hp, rfl, ?_⟩
      intro hnil
      rw [hnil] at he
      simp at he
  · rintro ⟨hp, hm, hne⟩
    subst hm
    refine ⟨rp, hp, ?_⟩
    cases he : (matchedIndicators content rp).isEmpty with
    | true => exact absurd (List.isEmpty_iff.mp he) hne
    | false => simp [he]

theorem detectPatterns_map_sublist (content : String) (patterns : List ThreatPattern) :
    List.Sublist ((detectPatterns content patterns).map MatchResult.pattern) patterns := by
  induction patterns with
  | nil => simp [detectPatterns]
  | cons p ps ih =>
    simp only [detectPatterns, List.filterMap_cons] at ih ⊢
    by_cases he : (matchedIndicators content p).isEmpty
    · simp only [he, if_true]
      exact ih.cons p
    · simp only [he, Bool.false_eq_true, if_false, List.map_cons]
      exact ih.cons₂ p

/-- C4: a pattern contributes a `MatchResult` iff one of its indicators occurs
case-insensitively in the full content; the result carries exactly the matched
indicators, in indicator declaration order; the result list is in catalog
order. -/
theorem C4_matcher_characterization (content : String) (patterns : List ThreatPattern) :
    List.Sublist ((detectPatterns content patterns).map MatchResult.pattern) patterns ∧
    (∀ r ∈ detectPatterns content patterns,
      (∃ ind ∈ r.pattern.indicators, occursIn ind content) ∧
      List.Sublist r.matched r.pattern.indicators ∧
      (∀ ind, ind ∈ r.matched ↔ ind ∈ r.pattern.indicators ∧ occursIn ind content)) ∧
    (∀ p ∈ patterns, (∃ ind ∈ p.indicators, occursIn ind content) →
      (⟨p, matchedIndicators content p⟩ : MatchResult) ∈ detectPatterns content patterns) := by
  refine ⟨detectPatterns_map_sublist content patterns, ?_, ?_⟩
  · intro r hr
    rcases (mem_detectPatterns content patterns r).mp hr with ⟨hp, hm, hne⟩
    refine ⟨?_, ?_, ?_⟩
    · rw [hm] at hne
      exact (matchedIndicators_ne_nil_iff content r.pattern).mp hne
    · rw [hm]
      exact matchedIndicators_sublist content r.pattern
    · intro ind
      rw [hm]
      exact mem_matchedIndicators content r.pattern ind
  · intro p hp hocc
    exact (mem_detectPatterns content patterns ⟨p, matchedIndicators content p⟩).mpr
      ⟨hp, rfl, (matchedIndicators_ne_nil_iff content p).mpr hocc⟩

/-- Witness for C4 at the demo inputs: the matcher includes the second catalog
pattern with its matched indicator list. -/
theorem C4_matcher_characterization_witness :
    (⟨demoLinks, ["bit.ly"]⟩ : MatchResult) ∈ detectPatterns demoContent demoCatalog := by
  have h := (C4_matcher_characterization demoContent demoCatalog).2.2 demoLinks
    (List.mem_cons_of_mem _ (List.mem_cons_self _ _))
    ⟨"bit.ly", List.mem_cons_self _ _, (occursIn_iff_containsSub _ _).mpr (by rfl)⟩
  have he : matchedIndicators demoContent demoLinks = ["bit.ly"] := by rfl
  rwa [he] at h

theorem foldl_weight_eq_sum (l : List MatchResult) :
    l.foldl (fun sum p => sum + p.pattern.severity_weight) 0 =
      (l.map (fun r => r.pattern.severity_weight)).sum := by
  rw [List.sum_eq_foldl, List.foldl_map]

theorem severityFromAvg_eq_severitySpec (a : ℚ) : severityFromAvg a = severitySpec a := rfl

theorem severityFromAvg_ne_safe (a : ℚ) : severityFromAvg a ≠ Severity.safe := by
  unfold severityFromAvg
  split
  · simp
  · split
    · simp
    · split <;> simp

/-- C1: with at least one match and all weights in [0,1], the scorer returns
exactly the confidence formula of the spec and its inclusive, priority-ordered
severity thresholds over the mean matched weight. -/
theorem C1_scorer_formula (patterns : List ThreatPattern) (content sourceType : String)
    (r : MatchResult) (rs : List MatchResult)
    (hd : detectPatterns content patterns = r :: rs)
    (_hw : ∀ p ∈ patterns, 0 ≤ p.severity_weight ∧ p.severity_weight ≤ 1) :
    (analyzeThreatWithNLP (some patterns) content sourceType).confidenceScore =
      confidenceSpec (r :: rs).length (avgWeightSpec (r :: rs)) ∧
    (analyzeThreatWithNLP (some patterns) content sourceType).severityLevel =
      severitySpec (avgWeightSpec (r :: rs)) := by
  simp only [analyzeThreatWithNLP, hd]
  constructor
  · rw [confidenceSpec, avgWeightSpec, foldl_weight_eq_sum]
    congr 1
    ring
  · rw [← severityFromAvg_eq_severitySpec, avgWeightSpec, ← foldl_weight_eq_sum]

/-- Witness for C1: on the concrete scenario of the spec the formula yields
confidence min(95, 96.5) = 95 and severity high (avg weight 0.825). -/
theorem C1_scorer_formula_witness :
    (analyzeThreatWithNLP (some demoCatalog) demoContent "email").confidenceScore = 95 ∧
    (analyzeThreatWithNLP (some demoCatalog) demoContent "email").severityLevel = Severity.high := by
  have hd : detectPatterns demoContent demoCatalog =
      [⟨demoUrgency, ["urgent"]⟩, ⟨demoLinks, ["bit.ly"]⟩] := rfl
  have hw : ∀ p ∈ demoCatalog, 0 ≤ p.severity_weight ∧ p.severity_weight ≤ 1 := by
    intro p hp
    simp only [demoCatalog, List.mem_cons, List.not_mem_nil, or_false] at hp
    rcases hp with rfl | rfl
    · constructor <;> norm_num [demoUrgency]
    · constructor <;> norm_num [demoLinks]
  have h := C1_scorer_formula demoCatalog demoContent "email"
    ⟨demoUrgency, ["urgent"]⟩ [⟨demoLinks, ["bit.ly"]⟩] hd hw
  have havg : avgWeightSpec [⟨demoUrgency, ["urgent"]⟩, ⟨demoLinks, ["bit.ly"]⟩] = 33/40 := by
    norm_num [avgWeightSpec, demoUrgency, demoLinks]
  constructor
  · rw [h.1, havg, confidenceSpec]
    rw [min_eq_left (by norm_num)]
  · rw [h.2, havg, severitySpec]
    norm_num

/-- C2: catalog fetch returning nothing gives the degraded safe outcome
(confidence 0); a present catalog with no match gives the checked safe outcome
(confidence 95); both with threat type "none". -/
theorem C2_two_safe_outcomes (content sourceType : String) :
    ((analyzeThreatWithNLP none content sourceType).severityLevel = Severity.safe ∧
      (analyzeThreatWithNLP none content sourceType).confidenceScore = 0 ∧
      (analyzeThreatWithNLP none content sourceType).threatType = "none") ∧
    ∀ patterns : List ThreatPattern, detectPatterns content patterns = [] →
      (analyzeThreatWithNLP (some patterns) content sourceType).severityLevel = Severity.safe ∧
      (analyzeThreatWithNLP (some patterns) content sourceType).confidenceScore = 95 ∧
      (analyzeThreatWithNLP (some patterns) content sourceType).threatType = "none" := by
  refine ⟨⟨rfl, rfl, rfl⟩, ?_⟩
  intro patterns h
  simp only [analyzeThreatWithNLP, h]
  exact ⟨trivial, trivial, trivial⟩

/-- Witness for C2 at concrete no-match content against the demo catalog. -/
theorem C2_two_safe_outcomes_witness :
    (analyzeThreatWithNLP (some demoCatalog) demoSafeContent "message").severityLevel = Severity.safe ∧
    (analyzeThreatWithNLP (some demoCatalog) demoSafeContent "message").confidenceScore = 95 ∧
    (analyzeThreatWithNLP (some demoCatalog) demoSafeContent "message").threatType = "none" :=
  (C2_two_safe_outcomes demoSafeContent "message").2 demoCatalog rfl

/-- C3: the returned threat type is the category of the first matched pattern
in catalog order. -/
theorem C3_threatType_first_catalog_match (patterns : List ThreatPattern)
    (content sourceType : String) (r : MatchResult) (rs : List MatchResult)
    (hd : detectPatterns content patterns = r :: rs) :
    (analyzeThreatWithNLP (some patterns) content sourceType).threatType =
      r.pattern.pattern_type := by
  simp only [analyzeThreatWithNLP, hd]

/-- Witness for C3: on the demo catalog the first catalog-order match wins even
though the later match carries a strictly higher weight. -/
theorem C3_threatType_first_catalog_match_witness :
    (analyzeThreatWithNLP (some demoCatalog) demoContent "email").threatType = "urgency" ∧
    demoUrgency.severity_weight < demoLinks.severity_weight := by
  constructor
  · exact C3_threatType_first_catalog_match demoCatalog demoContent "email"
      ⟨demoUrgency, ["urgent"]⟩ [⟨demoLinks, ["bit.ly"]⟩] rfl
  · norm_num [demoUrgency, demoLinks]

/-- C10: with at least one match and all matched weights in [0,1], the returned
confidence is at least 65 and the severity is never safe. -/
theorem C10_confidence_floor (patterns : List ThreatPattern) (content sourceType : String)
    (r : MatchResult) (rs : List MatchResult)
    (hd : detectPatterns content patterns = r :: rs)
    (hw : ∀ q ∈ detectPatterns content patterns,
      0 ≤ q.pattern.severity_weight ∧ q.pattern.severity_weight ≤ 1) :
    65 ≤ (analyzeThreatWithNLP (some patterns) content sourceType).confidenceScore ∧
    (analyzeThreatWithNLP (some patterns) content sourceType).severityLevel ≠ Severity.safe := by
  simp only [analyzeThreatWithNLP, hd]
  constructor
  · rw [foldl_weight_eq_sum]
    refine le_min (by norm_num) ?_
    have hlen : (1 : ℚ) ≤ ((r :: rs).length : ℚ) := by
      have h1 : 1 ≤ (r :: rs).length := Nat.succ_le_succ (Nat.zero_le _)
      exact_mod_cast h1
    have hlenpos : (0 : ℚ) < ((r :: rs).length : ℚ) := lt_of_lt_of_le one_pos hlen
    have hsum : 0 ≤ ((r :: rs).map (fun q => q.pattern.severity_weight)).sum := by
      apply List.sum_nonneg
      intro x hx
      rcases List.mem_map.mp hx with ⟨q, hq, rfl⟩
      refine (hw q ?_).1
      rw [hd]
      exact hq
    have havg : 0 ≤ ((r :: rs).map (fun q => q.pattern.severity_weight)).sum /
        ((r :: rs).length : ℚ) := div_nonneg hsum (le_of_lt hlenpos)
    nlinarith [havg, hlen]
  · exact severityFromAvg_ne_safe _

/-- Witness for C10 at the demo inputs: confidence 95 ≥ 65 and severity high. -/
theorem C10_confidence_floor_witness :
    65 ≤ (analyzeThreatWithNLP (some demoCatalog) demoContent "email").confidenceScore ∧
    (analyzeThreatWithNLP (some demoCatalog) demoContent "email").severityLevel ≠ Severity.safe := by
  refine C10_confidence_floor demoCatalog demoContent "email"
    ⟨demoUrgency, ["urgent"]⟩ [⟨demoLinks, ["bit.ly"]⟩] rfl ?_
  intro q hq
  have hd : detectPatterns demoContent demoCatalog =
      [(⟨demoUrgency, ["urgent"]⟩ : MatchResult), ⟨demoLinks, ["bit.ly"]⟩] := rfl
  rw [hd] at hq
  simp only [List.mem_cons, List.not_mem_nil, or_false] at hq
  rcases hq with rfl | rfl
  · constructor <;> norm_num [demoUrgency]
  · constructor <;> norm_num [demoLinks]

theorem statsInvariant_update (o : Option DailyStats) (sev : Severity) :
    statsInvariant o → statsInvariant (some (updateUserStats o sev)) := by
  intro h
  cases o with
  | none =>
    cases sev <;>
      simp [updateUserStats, statsInvariant, sumCounts, SeverityCounts.set]
  | some s =>
    simp only [statsInvariant, sumCounts] at h
    cases sev <;>
      simp [updateUserStats, statsInvariant, sumCounts, SeverityCounts.set,
        SeverityCounts.get] <;>
      omega

theorem statsInvariant_foldl (sevs : List Severity) (o : Option DailyStats) :
    statsInvariant o →
    statsInvariant (sevs.foldl (fun st sev => some (updateUserStats st sev)) o) := by
  induction sevs generalizing o with
  | nil => intro h; exact h
  | cons sev rest ih => intro h; exact ih _ (statsInvariant_update o sev h)

/-- C6: the first scan of a day creates the stats row with total 1, zero false
positives, threat count 1 iff not safe, and the scanned severity counted once;
each later scan increments the total and the scanned severity counter; the sum
of the per-severity counters equals the total after every call. -/
theorem C6_stats_aggregation :
    (∀ sev : Severity,
      (updateUserStats none sev).total_scanned = 1 ∧
      (updateUserStats none sev).false_positives = 0 ∧
      (updateUserStats none sev).threats_detected = (if sev = Severity.safe then 0 else 1) ∧
      ∀ s : Severity, (updateUserStats none sev).threats_by_severity.get s =
        (if s = sev then 1 else 0)) ∧
    (∀ st : DailyStats, ∀ sev : Severity,
      (updateUserStats (some st) sev).total_scanned = st.total_scanned + 1 ∧
      (updateUserStats (some st) sev).threats_detected =
        st.threats_detected + (if sev = Severity.safe then 0 else 1) ∧
      ∀ s : Severity, (updateUserStats (some st) sev).threats_by_severity.get s =
        st.threats_by_severity.get s + (if s = sev then 1 else 0)) ∧
    (∀ sevs : List Severity, statsInvariant (runDailyScans sevs)) := by
  refine ⟨?_, ?_, ?_⟩
  · intro sev
    refine ⟨rfl, rfl, ?_, ?_⟩
    · cases sev <;> simp [updateUserStats]
    · intro s
      cases sev <;> cases s <;>
        simp [updateUserStats, SeverityCounts.set, SeverityCounts.get]
  · intro st sev
    refine ⟨rfl, ?_, ?_⟩
    · cases sev <;> simp [updateUserStats]
    · intro s
      cases sev <;> cases s <;>
        simp [updateUserStats, SeverityCounts.set, SeverityCounts.get]
  · intro sevs
    exact statsInvariant_foldl sevs none trivial

/-- C5 counterexample: acknowledging a record whose status is `resolved` does
not fail — the update succeeds and moves the status to `acknowledged`. -/
theorem C5_counterexample :
    (markThreatAcknowledged ⟨Status.resolved, some "2025-01-01"⟩).status = Status.acknowledged ∧
    markThreatAcknowledged ⟨Status.resolved, some "2025-01-01"⟩ ≠
      ⟨Status.resolved, some "2025-01-01"⟩ := by
  constructor
  · rfl
  · intro h
    have hs := congrArg StoredThreat.status h
    simp [markThreatAcknowledged] at hs

/-- C5 amended: the two status endpoints enforce no precondition — acknowledge
sets `acknowledged` from any status and leaves `resolved_at` unchanged; resolve
sets `resolved` and a non-null `resolved_at` from any status. -/
theorem C5_amended_unconditional_transitions (t : StoredThreat) (now : String) :
    (markThreatAcknowledged t).status = Status.acknowledged ∧
    (markThreatAcknowledged t).resolved_at = t.resolved_at ∧
    (markThreatResolved t now).status = Status.resolved ∧
    (markThreatResolved t now).resolved_at = some now ∧
    (markThreatResolved t now).resolved_at ≠ none :=
  ⟨rfl, rfl, rfl, rfl, fun h => Option.noConfusion h⟩

/-- C7 counterexample: a scan with empty content and an unrecognized source
type is not rejected — with a working insert it persists a record and writes a
stats row. -/
theorem C7_counterexample :
    (scanCommunication ⟨some demoCatalog, false, none⟩ "user-1" "" "carrier-pigeon").1.isSome
      = true ∧
    (scanCommunication ⟨some demoCatalog, false, none⟩ "user-1" "" "carrier-pigeon").2 =
      some (updateUserStats none Severity.safe) :=
  ⟨rfl, rfl⟩

/-- C7 amended: `scanCommunication` performs no input validation — for every
content (empty included) and every source type (unrecognized included), when
the insert succeeds it returns a persisted record and updates the stats row. -/
theorem C7_amended_no_validation (pr : Option (List ThreatPattern)) (st : Option DailyStats)
    (userId content sourceType : String) :
    (scanCommunication ⟨pr, false, st⟩ userId content sourceType).1.isSome = true ∧
    (scanCommunication ⟨pr, false, st⟩ userId content sourceType).2 =
      some (updateUserStats st (analyzeThreatWithNLP pr content sourceType).severityLevel) :=
  ⟨rfl, rfl⟩

/-- C8: when persisting the record fails, the call reports failure and the
stats row is left exactly as it was — the aggregator is not invoked. -/
theorem C8_insert_failure_skips_stats (pr : Option (List ThreatPattern)) (st : Option DailyStats)
    (userId content sourceType : String) :
    scanCommunication ⟨pr, true, st⟩ userId content sourceType = (none, st) :=
  rfl

/-- C9 counterexample: on a no-match scan the produced explanation is not the
severity-table rendering for `safe` and does not begin with the safe
summary sentence of the table. -/
theorem C9_counterexample :
    (analyzeThreatWithNLP (some demoCatalog) demoSafeContent "email").nlpExplanation ≠
      generateNLPExplanation (detectPatterns demoSafeContent demoCatalog) Severity.safe "email" ∧
    leadsWith (analyzeThreatWithNLP (some demoCatalog) demoSafeContent "email").nlpExplanation.data
      (String.data "Safe communication detected.") = false := by
  constructor
  · decide
  · decide

/-- C9 amended: every no-match scan returns the fixed safe message (which has
no per-pattern block), produced without the severity table. -/
theorem C9_amended_fixed_safe_message (patterns : List ThreatPattern)
    (content sourceType : String) (h : detectPatterns content patterns = []) :
    (analyzeThreatWithNLP (some patterns) content sourceType).nlpExplanation =
      "Analysis complete: No social engineering indicators detected. This communication appears legitimate and safe." := by
  simp only [analyzeThreatWithNLP, h]

/-- Witness for the amended C9 at concrete no-match content. -/
theorem C9_amended_fixed_safe_message_witness :
    (analyzeThreatWithNLP (some demoCatalog) demoSafeContent "email").nlpExplanation =
      "Analysis complete: No social engineering indicators detected. This communication appears legitimate and safe." :=
  C9_amended_fixed_safe_message demoCatalog demoSafeContent "email" rfl

end ThreatEngine
